import Mathlib

/-!
Verification of the motion-tracking core of `motionTracking.py`
(Tovertafel 2.0 game system).

The per-frame pipeline is embedded shallowly:

* pixel frames are flat lists of natural-number intensities (uint8 values);
* the external OpenCV primitives whose internals are out of scope
  (grayscale conversion, Gaussian blur, threshold, erosion, dilation,
  contour extraction, k-means) are taken as function parameters, so every
  theorem quantifies over their behaviour;
* floating-point coordinates are modelled by exact rationals; the source
  compares `math.sqrt` of sums of squares with `<`, and square root is
  strictly monotone on nonnegative reals, so every comparison performed by
  the source coincides with the comparison of the squared distances used
  here;
* Python's `float("inf")` initial minimum is modelled by `Option ℚ` with
  `none` for infinity (every finite distance is below it).
-/

/-- A 2-D point with real-valued (here: rational) coordinates, as produced by
`np.float32` conversion and by `cv2.kmeans` centers. -/
abbrev Point : Type := ℚ × ℚ

/-- Squared Euclidean distance.  The source computes
`math.sqrt ((p0x - ix)**2 + (p0y - iy)**2)`; since `Real.sqrt` is strictly
monotone on nonnegatives, the `<` comparisons of the source's distances agree
with `<` on these squared values. -/
def dist2 (p q : Point) : ℚ :=
  (p.1 - q.1) ^ 2 + (p.2 - q.2) ^ 2

/-- The minimum-distance scan of `centroidTracking` (lines 164-172 of
`motionTracking.py`): walk the candidate list, keep the running minimum
distance (`minDistance`, initially `float("inf")`, modelled by `none`) and the
coordinates that achieved it (`minCoordinatesCenter`, initially `[0, 0]`).
A candidate replaces the minimum only under strict `<`, so ties keep the
earlier candidate. -/
def minCoordsCenter (previousCenter0 : Point) (cands : List Point) : Point :=
  (cands.foldl
    (fun acc i =>
      match acc.1 with
      | none => (some (dist2 previousCenter0 i), i)
      | some m =>
          if dist2 previousCenter0 i < m then (some (dist2 previousCenter0 i), i) else acc)
    ((none : Option ℚ), ((0 : ℚ), (0 : ℚ)))).2

/-- Formalisation of the claims' "nearest of the three candidates, argmin of
the Euclidean distances computed in that order, ties broken to the earlier
candidate under strict less-than": the index of the candidate whose
coordinates the scan of `minCoordsCenter` retains. -/
def nearestCandidateIdx (previousCenter0 : Point) (cands : List Point) : ℕ :=
  (cands.foldl
    (fun acc i =>
      match acc.2.1 with
      | none => (acc.1 + 1, some (dist2 previousCenter0 i), acc.1)
      | some m =>
          if dist2 previousCenter0 i < m then (acc.1 + 1, some (dist2 previousCenter0 i), acc.1)
          else (acc.1 + 1, acc.2))
    ((0 : ℕ), (none : Option ℚ), (0 : ℕ))).2.2

/-- `centroidTracking(clusterA, clusterB, center, previousCenter)`
(lines 153-179 of `motionTracking.py`).  Builds the candidate list
`[center[0], center[1], previousCenter[1]]`, finds the coordinates nearest to
`previousCenter[0]`, and iff those coordinates equal `center[1]`'s
(the numpy test `(minCoordinatesCenter == comparisonCenterCoordinates[1]).all()`
is coordinate-wise equality) swaps the two clusters and reverses the center
pair. -/
def centroidTracking (clusterA clusterB : List Point) (center previousCenter : Point × Point) :
    List Point × List Point × (Point × Point) :=
  let comparisonCenterCoordinates := [center.1, center.2, previousCenter.2]
  let minCoordinatesCenter := minCoordsCenter previousCenter.1 comparisonCenterCoordinates
  if minCoordinatesCenter = center.2 then
    (clusterB, clusterA, (center.2, center.1))
  else
    (clusterA, clusterB, center)

/-- Unfolding of the three-candidate scan. -/
theorem minCoordsCenter_three (p0 c0 c1 p1 : Point) :
    minCoordsCenter p0 [c0, c1, p1] =
      if dist2 p0 c1 < dist2 p0 c0 then
        (if dist2 p0 p1 < dist2 p0 c1 then p1 else c1)
      else
        (if dist2 p0 p1 < dist2 p0 c0 then p1 else c0) := by
  simp only [minCoordsCenter, List.foldl]
  by_cases h1 : dist2 p0 c1 < dist2 p0 c0 <;>
    by_cases h2 : dist2 p0 p1 < dist2 p0 c1 <;>
    by_cases h3 : dist2 p0 p1 < dist2 p0 c0 <;>
    simp [h1, h2, h3]

/-- Unfolding of the three-candidate argmin index. -/
theorem nearestCandidateIdx_three (p0 c0 c1 p1 : Point) :
    nearestCandidateIdx p0 [c0, c1, p1] =
      if dist2 p0 c1 < dist2 p0 c0 then
        (if dist2 p0 p1 < dist2 p0 c1 then 2 else 1)
      else
        (if dist2 p0 p1 < dist2 p0 c0 then 2 else 0) := by
  simp only [nearestCandidateIdx, List.foldl]
  by_cases h1 : dist2 p0 c1 < dist2 p0 c0 <;>
    by_cases h2 : dist2 p0 p1 < dist2 p0 c1 <;>
    by_cases h3 : dist2 p0 p1 < dist2 p0 c0 <;>
    simp [h1, h2, h3]

/-- The scan retains the coordinates of the candidate at the argmin index. -/
theorem minCoordsCenter_eq_get_nearest (p0 c0 c1 p1 : Point) :
    minCoordsCenter p0 [c0, c1, p1] =
      [c0, c1, p1].getD (nearestCandidateIdx p0 [c0, c1, p1]) ((0 : ℚ), (0 : ℚ)) := by
  rw [minCoordsCenter_three, nearestCandidateIdx_three]
  by_cases h1 : dist2 p0 c1 < dist2 p0 c0 <;>
    by_cases h2 : dist2 p0 p1 < dist2 p0 c1 <;>
    by_cases h3 : dist2 p0 p1 < dist2 p0 c0 <;>
    simp [h1, h2, h3]

/-- **C1.** If the current second center is strictly nearer to
`previousCenter[0]` than both the current first center and
`previousCenter[1]`, then `centroidTracking` swaps the cluster point sets and
reverses the center pair. -/
theorem centroidTracking_swaps_when_center1_nearest
    (clusterA clusterB : List Point) (center previousCenter : Point × Point)
    (h1 : dist2 previousCenter.1 center.2 < dist2 previousCenter.1 center.1)
    (h2 : dist2 previousCenter.1 center.2 < dist2 previousCenter.1 previousCenter.2) :
    centroidTracking clusterA clusterB center previousCenter =
      (clusterB, clusterA, (center.2, center.1)) := by
  have hmin : minCoordsCenter previousCenter.1 [center.1, center.2, previousCenter.2]
      = center.2 := by
    rw [minCoordsCenter_three]
    simp [h1, not_lt.mpr h2.le]
  simp [centroidTracking, hmin]

/-- Witness for `centroidTracking_swaps_when_center1_nearest` at a concrete
input: `center = ((10,0),(1,0))`, `previousCenter = ((0,0),(8,8))`. -/
theorem centroidTracking_swaps_when_center1_nearest_witness :
    centroidTracking [((1 : ℚ), (2 : ℚ))] [((3 : ℚ), (4 : ℚ))]
        (((10 : ℚ), (0 : ℚ)), ((1 : ℚ), (0 : ℚ)))
        (((0 : ℚ), (0 : ℚ)), ((8 : ℚ), (8 : ℚ))) =
      ([((3 : ℚ), (4 : ℚ))], [((1 : ℚ), (2 : ℚ))], (((1 : ℚ), (0 : ℚ)), ((10 : ℚ), (0 : ℚ)))) :=
  centroidTracking_swaps_when_center1_nearest _ _ _ _ (by norm_num [dist2]) (by norm_num [dist2])

/-- **C9.** The swap decision depends only on the coordinate values retained
by the scan: whenever the nearest candidate's coordinates equal `center[1]`'s,
a swap occurs.  In particular (second conjunct) when `center[0]` and
`center[1]` are coordinate-equal the argmin index is 0 — ties break to the
earlier candidate under strict less-than — yet the swap still occurs, and
(third conjunct) when `previousCenter[1]` is nearest but coordinate-equal to
`center[1]`, the swap also occurs. -/
theorem centroidTracking_swap_by_coordinates :
    (∀ (clusterA clusterB : List Point) (center previousCenter : Point × Point),
        minCoordsCenter previousCenter.1 [center.1, center.2, previousCenter.2] = center.2 →
        centroidTracking clusterA clusterB center previousCenter =
          (clusterB, clusterA, (center.2, center.1))) ∧
    (∀ (clusterA clusterB : List Point) (center previousCenter : Point × Point),
        center.1 = center.2 →
        dist2 previousCenter.1 center.1 ≤ dist2 previousCenter.1 previousCenter.2 →
        nearestCandidateIdx previousCenter.1 [center.1, center.2, previousCenter.2] = 0 ∧
        centroidTracking clusterA clusterB center previousCenter =
          (clusterB, clusterA, (center.2, center.1))) ∧
    (∀ (clusterA clusterB : List Point) (center previousCenter : Point × Point),
        previousCenter.2 = center.2 →
        dist2 previousCenter.1 previousCenter.2 < dist2 previousCenter.1 center.1 →
        centroidTracking clusterA clusterB center previousCenter =
          (clusterB, clusterA, (center.2, center.1))) := by
  refine ⟨?_, ?_, ?_⟩
  · intro clusterA clusterB center previousCenter hmin
    simp [centroidTracking, hmin]
  · intro clusterA clusterB center previousCenter heq hle
    have hnotlt : ¬ dist2 previousCenter.1 center.2 < dist2 previousCenter.1 center.1 := by
      rw [heq]
      exact lt_irrefl _
    constructor
    · rw [nearestCandidateIdx_three]
      rw [heq] at hle ⊢
      simp [hnotlt, not_lt.mpr hle]
    · have hmin : minCoordsCenter previousCenter.1 [center.1, center.2, previousCenter.2]
          = center.2 := by
        rw [minCoordsCenter_three, heq] at *
        simp [hnotlt, not_lt.mpr hle]
      simp [centroidTracking, hmin]
  · intro clusterA clusterB center previousCenter heq hlt
    have hmin : minCoordsCenter previousCenter.1 [center.1, center.2, previousCenter.2]
        = center.2 := by
      rw [minCoordsCenter_three]
      rw [heq] at hlt ⊢
      simp [hlt]
    simp [centroidTracking, hmin]

/-- Witness for `centroidTracking_swap_by_coordinates`: its second conjunct at
coordinate-equal centers `center = ((1,1),(1,1))`, `previousCenter = ((0,0),(9,9))`. -/
theorem centroidTracking_swap_by_coordinates_witness :
    nearestCandidateIdx ((0 : ℚ), (0 : ℚ))
        [((1 : ℚ), (1 : ℚ)), ((1 : ℚ), (1 : ℚ)), ((9 : ℚ), (9 : ℚ))] = 0 ∧
    centroidTracking [((1 : ℚ), (2 : ℚ))] [((3 : ℚ), (4 : ℚ))]
        (((1 : ℚ), (1 : ℚ)), ((1 : ℚ), (1 : ℚ)))
        (((0 : ℚ), (0 : ℚ)), ((9 : ℚ), (9 : ℚ))) =
      ([((3 : ℚ), (4 : ℚ))], [((1 : ℚ), (2 : ℚ))], (((1 : ℚ), (1 : ℚ)), ((1 : ℚ), (1 : ℚ)))) := by
  have h := centroidTracking_swap_by_coordinates.2.1
    [((1 : ℚ), (2 : ℚ))] [((3 : ℚ), (4 : ℚ))]
    (((1 : ℚ), (1 : ℚ)), ((1 : ℚ), (1 : ℚ)))
    (((0 : ℚ), (0 : ℚ)), ((9 : ℚ), (9 : ℚ)))
    rfl (by norm_num [dist2])
  simpa using h

/-- **C2, counterexample.** The claim "if the nearest candidate (argmin in
order, ties to the earlier) is `center[0]` or `previousCenter[1]` then no
swap is performed and everything is returned exactly as given" is false on the
code: with `center = ((1,1),(1,1))` and `previousCenter = ((0,0),(9,9))` the
argmin is candidate 0 (i.e. `center[0]`), yet the numpy coordinate-equality
test against `center[1]` succeeds and the clusters are swapped, so the result
differs from the input. -/
theorem centroidTracking_no_swap_claim_false :
    nearestCandidateIdx ((0 : ℚ), (0 : ℚ))
        [((1 : ℚ), (1 : ℚ)), ((1 : ℚ), (1 : ℚ)), ((9 : ℚ), (9 : ℚ))] = 0 ∧
    centroidTracking [((1 : ℚ), (2 : ℚ))] [((3 : ℚ), (4 : ℚ))]
        (((1 : ℚ), (1 : ℚ)), ((1 : ℚ), (1 : ℚ)))
        (((0 : ℚ), (0 : ℚ)), ((9 : ℚ), (9 : ℚ))) ≠
      ([((1 : ℚ), (2 : ℚ))], [((3 : ℚ), (4 : ℚ))], (((1 : ℚ), (1 : ℚ)), ((1 : ℚ), (1 : ℚ)))) := by
  constructor
  · rw [nearestCandidateIdx_three]
    norm_num [dist2]
  · rw [centroidTracking]
    norm_num [minCoordsCenter_three, dist2]

/-- **C2, amended.** If the nearest candidate (argmin in order, ties to the
earlier candidate under strict less-than) is `center[0]` or
`previousCenter[1]` *and its coordinates differ from `center[1]`'s*, then
`centroidTracking` performs no swap: it returns cluster A, cluster B and the
center pair exactly as given. -/
theorem centroidTracking_no_swap_when_center1_not_nearest
    (clusterA clusterB : List Point) (center previousCenter : Point × Point)
    (hidx : nearestCandidateIdx previousCenter.1 [center.1, center.2, previousCenter.2] = 0 ∨
      nearestCandidateIdx previousCenter.1 [center.1, center.2, previousCenter.2] = 2)
    (hne : minCoordsCenter previousCenter.1 [center.1, center.2, previousCenter.2] ≠ center.2) :
    centroidTracking clusterA clusterB center previousCenter =
      (clusterA, clusterB, center) := by
  simp [centroidTracking, hne]

/-- Witness for `centroidTracking_no_swap_when_center1_not_nearest` at
`center = ((1,0),(10,0))`, `previousCenter = ((0,0),(8,8))`: the argmin is
candidate 0 and its coordinates differ from `center[1]`'s, so nothing is
swapped. -/
theorem centroidTracking_no_swap_when_center1_not_nearest_witness :
    centroidTracking [((1 : ℚ), (2 : ℚ))] [((3 : ℚ), (4 : ℚ))]
        (((1 : ℚ), (0 : ℚ)), ((10 : ℚ), (0 : ℚ)))
        (((0 : ℚ), (0 : ℚ)), ((8 : ℚ), (8 : ℚ))) =
      ([((1 : ℚ), (2 : ℚ))], [((3 : ℚ), (4 : ℚ))],
        (((1 : ℚ), (0 : ℚ)), ((10 : ℚ), (0 : ℚ)))) := by
  have h := centroidTracking_no_swap_when_center1_not_nearest
    [((1 : ℚ), (2 : ℚ))] [((3 : ℚ), (4 : ℚ))]
    (((1 : ℚ), (0 : ℚ)), ((10 : ℚ), (0 : ℚ)))
    (((0 : ℚ), (0 : ℚ)), ((8 : ℚ), (8 : ℚ)))
    (by rw [nearestCandidateIdx_three]; norm_num [dist2])
    (by rw [minCoordsCenter_three]; norm_num [dist2])
  simpa using h

/-- **C10.** `centroidTracking` does not update the tracked state: its result
is built solely from the cluster arguments and the current center pair —
either everything is returned as given, or the clusters are exchanged and the
center pair reversed.  No updated `previousCenter` is produced (the source
only reads `previousCenter`, and the caller is responsible for carrying state
to the next frame). -/
theorem centroidTracking_reads_only_previousCenter
    (clusterA clusterB : List Point) (center previousCenter : Point × Point) :
    centroidTracking clusterA clusterB center previousCenter =
        (clusterA, clusterB, center) ∨
      centroidTracking clusterA clusterB center previousCenter =
        (clusterB, clusterA, (center.2, center.1)) := by
  rw [centroidTracking]
  by_cases h : minCoordsCenter previousCenter.1 [center.1, center.2, previousCenter.2]
      = center.2
  · right
    simp [h]
  · left
    simp [h]

/-! ## Image processing (`imageProcessing`, lines 80-110)

A frame is a flat list of uint8 intensities.  The OpenCV primitives whose
internals are outside the core (`cv2.cvtColor`, `cv2.GaussianBlur`,
`cv2.threshold`, `cv2.erode`, `cv2.dilate`, `cv2.findContours`) are function
parameters; `cv2.absdiff`, whose per-pixel semantics claim C6 is about, is
embedded concretely (for uint8 inputs it is the exact absolute difference,
since `|a - b| ≤ 255`). -/

/-- A frame: a flat list of pixel intensities (uint8 values). -/
abbrev Frame : Type := List ℕ

/-- A contour: the integer pixel coordinates of one connected motion boundary,
as returned by `cv2.findContours` (each `i[j][0]` of the source). -/
abbrev Contour : Type := List (ℤ × ℤ)

/-- `cv2.absdiff`: the per-pixel absolute difference of two frames. -/
def absdiff (a b : Frame) : Frame :=
  List.zipWith (fun x y => max x y - min x y) a b

/-- The five-tuple returned by `imageProcessing`:
`(master, contours, hierarchy, frames, status)`. -/
structure IPResult where
  master : Option Frame
  contours : Option (List Contour)
  hierarchy : Option (List ℤ)
  frames : Option (List Frame)
  status : String
  deriving DecidableEq

/-- `imageProcessing(camera, master)` (lines 80-110).  The camera read is
modelled by `grab : Option Frame` (`none` when `grabbed` is false); `master`
is the background reference.  On a failed grab it returns
`(None, None, None, None, 'break')`; on the first frame it stores the
blurred grayscale frame as `master` and returns `'continue'`; otherwise it
computes the delta against the incoming `master`, thresholds, erodes,
dilates, extracts contours, updates `master` to the new blurred frame, and
returns all six intermediate frames with status `'None'`. -/
def imageProcessing (cvtColor gaussianBlur threshold erode dilate : Frame → Frame)
    (findContours : Frame → List Contour × List ℤ)
    (grab : Option Frame) (master : Option Frame) : IPResult :=
  match grab with
  | none => ⟨none, none, none, none, "break"⟩
  | some frame0 =>
    let frame1 := cvtColor frame0
    let frame2 := gaussianBlur frame1
    match master with
    | none => ⟨some frame2, none, none, none, "continue"⟩
    | some m =>
      let frame3 := absdiff m frame2
      let frame4 := threshold frame3
      let frame5 := dilate (erode frame4)
      let fc := findContours frame5
      ⟨some frame2, some fc.1, some fc.2, some [frame0, frame1, frame2, frame3, frame4, frame5],
        "None"⟩

/-- Pointwise characterisation of `absdiff`: within bounds, the pixel at `i`
is the absolute value of the (integer) difference of the input pixels. -/
theorem absdiff_getD (a b : Frame) (i : ℕ) (ha : i < a.length) (hb : i < b.length) :
    (absdiff a b).getD i 0 = ((a.getD i 0 : ℤ) - (b.getD i 0 : ℤ)).natAbs := by
  induction a generalizing b i with
  | nil => simp at ha
  | cons x xs ih =>
    cases b with
    | nil => simp at hb
    | cons y ys =>
      cases i with
      | zero =>
        simp only [absdiff, List.zipWith, List.getD_cons_zero]
        omega
      | succ j =>
        simp only [absdiff, List.zipWith, List.getD_cons_succ]
        exact ih ys j (by simpa using ha) (by simpa using hb)

/-- **C5.** When no background reference exists (`master` is `None`) and the
grab succeeds, `imageProcessing` stores the blurred grayscale frame as the
new reference and returns status `'continue'` with no delta, no contours and
no frame outputs. -/
theorem imageProcessing_warmup
    (cvtColor gaussianBlur threshold erode dilate : Frame → Frame)
    (findContours : Frame → List Contour × List ℤ) (frame0 : Frame) :
    imageProcessing cvtColor gaussianBlur threshold erode dilate findContours
        (some frame0) none =
      ⟨some (gaussianBlur (cvtColor frame0)), none, none, none, "continue"⟩ :=
  rfl

/-- **C7.** When the grab fails, `imageProcessing` returns status `'break'`
with no other outputs, independently of the background reference: `master` is
neither read nor replaced and no delta, mask or contours are produced. -/
theorem imageProcessing_end_of_stream
    (cvtColor gaussianBlur threshold erode dilate : Frame → Frame)
    (findContours : Frame → List Contour × List ℤ) (master : Option Frame) :
    imageProcessing cvtColor gaussianBlur threshold erode dilate findContours
        none master =
      ⟨none, none, none, none, "break"⟩ :=
  rfl

/-- **C6.** On a successfully processed non-warm-up frame the delta
(`frames[3]`) is the per-pixel absolute difference between the incoming
reference and the blurred grayscale current frame, and the reference returned
for the next call is the blurred grayscale current frame itself. -/
theorem imageProcessing_delta_and_master
    (cvtColor gaussianBlur threshold erode dilate : Frame → Frame)
    (findContours : Frame → List Contour × List ℤ) (frame0 m : Frame) :
    (imageProcessing cvtColor gaussianBlur threshold erode dilate findContours
        (some frame0) (some m)).master = some (gaussianBlur (cvtColor frame0)) ∧
    ((imageProcessing cvtColor gaussianBlur threshold erode dilate findContours
        (some frame0) (some m)).frames.map (fun fs => fs.getD 3 []))
      = some (absdiff m (gaussianBlur (cvtColor frame0))) ∧
    (∀ i, i < m.length → i < (gaussianBlur (cvtColor frame0)).length →
      (absdiff m (gaussianBlur (cvtColor frame0))).getD i 0
        = ((m.getD i 0 : ℤ) - ((gaussianBlur (cvtColor frame0)).getD i 0 : ℤ)).natAbs) := by
  refine ⟨rfl, rfl, ?_⟩
  intro i him hif
  exact absdiff_getD m (gaussianBlur (cvtColor frame0)) i him hif

/-- Witness for `imageProcessing_delta_and_master` with identity primitives,
current frame `[5, 3]` and reference `[2, 7]`: the returned reference is
`[5, 3]`, the delta is `[3, 4]` and pixel 0 of the delta is `|2 - 5| = 3`. -/
theorem imageProcessing_delta_and_master_witness :
    (imageProcessing id id id id id (fun _ => ([], [])) (some [5, 3])
        (some [2, 7])).master = some [5, 3] ∧
    (absdiff [2, 7] [5, 3]).getD 0 0 = (((2 : ℤ) - (5 : ℤ))).natAbs := by
  have h := imageProcessing_delta_and_master id id id id id (fun _ => ([], []))
    [5, 3] [2, 7]
  exact ⟨h.1, h.2.2 0 (by decide) (by decide)⟩

/-! ## Clustering (`clusterParams`, lines 114-125, and `contourClustering`,
lines 129-149)

`cv2.kmeans` is an external iterative primitive; it is modelled as a function
parameter producing a compactness score, one label per input point, and the
list of centers.  The configuration constants of lines 29-37 are embedded
verbatim. -/

/-- Configuration, line 29: how many contour points are needed to detect
motion. -/
def contourDetectionPoints : ℕ := 650

/-- Configuration, line 30: the random-sample budget
(0 = original contour points). -/
def numRandomContours : ℕ := 500

/-- Configuration, line 36. -/
def clusteringIter : ℕ := 10

/-- Configuration, line 37. -/
def clusteringEpsilon : ℚ := 1

/-- OpenCV constant `cv2.TERM_CRITERIA_EPS`. -/
def TERM_CRITERIA_EPS : ℕ := 2

/-- OpenCV constant `cv2.TERM_CRITERIA_MAX_ITER`. -/
def TERM_CRITERIA_MAX_ITER : ℕ := 1

/-- A k-means termination criterion: `(flags, maxIter, epsilon)`. -/
abbrev Criteria : Type := ℕ × ℕ × ℚ

/-- `clusterParams(multiTouch)` (lines 114-125): the k-means criteria, the
cluster count (2 when multi-touch is enabled, else 1) and the placeholder
clusters/centers. -/
def clusterParams (multiTouch : Bool) :
    Criteria × ℕ × List Point × List Point × List Point × List Point :=
  let criteria : Criteria :=
    (TERM_CRITERIA_EPS + TERM_CRITERIA_MAX_ITER, clusteringIter, clusteringEpsilon)
  let clusterA : List Point := [(0, 0)]
  let clusterB : List Point := [(0, 0)]
  let center : List Point := [(0, 0), (0, 0)]
  let clusterNumber : ℕ := if multiTouch then 2 else 1
  (criteria, clusterNumber, clusterA, clusterB, center, [])

/-- What the `cv2.kmeans` call returns: compactness, one label per input
point, and the centers. -/
structure KMeansResult where
  ret : ℚ
  label : List ℕ
  center : List Point

/-- The flattening loop of `contourClustering` (lines 137-140): append the
point `i[j][0]` of every contour `i` to one coordinate list. -/
def contourCoordinatesOf (contours : List Contour) : List (ℤ × ℤ) :=
  contours.foldl (fun acc i => acc ++ i) []

/-- The `np.float32` conversion (line 142) of the flattened coordinates: this
exact list is what `contourClustering` hands to `cv2.kmeans` (line 143). -/
def kmeansInput (contours : List Contour) : List Point :=
  (contourCoordinatesOf contours).map (fun p => ((p.1 : ℚ), (p.2 : ℚ)))

/-- `contourClustering(contours, criteria, clusterNumber, multiTouch)`
(lines 129-149), with `cv2.kmeans` as the parameter `kmeans`.  All flattened
contour points are passed to `kmeans`; cluster A is the points labelled 0;
cluster B is the points labelled 1 when multi-touch is enabled and the empty
list otherwise. -/
def contourClustering (kmeans : List Point → ℕ → Criteria → KMeansResult)
    (contours : List Contour) (criteria : Criteria) (clusterNumber : ℕ) (multiTouch : Bool) :
    List Point × List Point × List Point × ℚ :=
  let contourCoordinates := kmeansInput contours
  let r := kmeans contourCoordinates clusterNumber criteria
  let clusterA := (contourCoordinates.zip r.label).filterMap
    (fun pl => if pl.2 = 0 then some pl.1 else none)
  let clusterB := if multiTouch then
      (contourCoordinates.zip r.label).filterMap (fun pl => if pl.2 = 1 then some pl.1 else none)
    else []
  (clusterA, clusterB, r.center, r.ret)

/-- **C8.** With multi-touch disabled `contourClustering` returns an empty
cluster B whatever the clusterer does, and `clusterParams` requests 1 cluster
(versus 2 with multi-touch enabled). -/
theorem singleTouch_clusterB_empty :
    (clusterParams false).2.1 = 1 ∧ (clusterParams true).2.1 = 2 ∧
    ∀ (kmeans : List Point → ℕ → Criteria → KMeansResult)
      (contours : List Contour) (criteria : Criteria) (clusterNumber : ℕ),
      (contourClustering kmeans contours criteria clusterNumber false).2.1 = [] := by
  refine ⟨rfl, rfl, ?_⟩
  intro kmeans contours criteria clusterNumber
  rfl

/-- A contour set flattening to 501 points, one more than the sample budget. -/
def contours501 : List Contour := [List.replicate 501 ((0 : ℤ), (0 : ℤ))]

/-- An instrumented stand-in for `cv2.kmeans` that records in the
compactness slot how many points it was given. -/
def kmeansProbe : List Point → ℕ → Criteria → KMeansResult :=
  fun pts _ _ => ⟨(pts.length : ℚ), [], []⟩

/-- **C3 (failing input).** `numRandomContours = 500`, yet on a contour set
with 501 flattened points `contourClustering` hands all 501 points to the
clusterer: the sample budget declared on line 30 is never applied — no
subsampling step exists between flattening (lines 137-140) and the
`cv2.kmeans` call (line 143). -/
theorem kmeans_receives_more_than_budget :
    numRandomContours < (kmeansInput contours501).length ∧
    (contourClustering kmeansProbe contours501 (clusterParams true).1 2 true).2.2.2
      = ((501 : ℕ) : ℚ) := by
  have hflat : contourCoordinatesOf contours501 = List.replicate 501 ((0 : ℤ), (0 : ℤ)) := by
    rw [contours501, contourCoordinatesOf, List.foldl_cons, List.foldl_nil, List.nil_append]
  have hlen : (kmeansInput contours501).length = 501 := by
    rw [kmeansInput, hflat, List.length_map, List.length_replicate]
  constructor
  · rw [hlen]
    norm_num [numRandomContours]
  · show ((kmeansInput contours501).length : ℚ) = ((501 : ℕ) : ℚ)
    rw [hlen]

/-- When every point is labelled 0, the label-0 filter of `contourClustering`
keeps all of them. -/
theorem filterMap_zip_replicate_zero (pts : List Point) :
    ((pts.zip (List.replicate pts.length (0 : ℕ))).filterMap
      (fun pl => if pl.2 = 0 then some pl.1 else none)) = pts := by
  induction pts with
  | nil => rfl
  | cons p ps ih =>
    simp only [List.length_cons, List.replicate_succ, List.zip_cons_cons,
      List.filterMap_cons]
    simp [ih]

/-- A contour set flattening to 10 points, far below the activity gate. -/
def contours10 : List Contour := [List.replicate 10 ((5 : ℤ), (5 : ℤ))]

/-- A stand-in for `cv2.kmeans` that labels every point 0. -/
def kmeansAllZero : List Point → ℕ → Criteria → KMeansResult :=
  fun pts _ _ => ⟨0, List.replicate pts.length 0, [((0 : ℚ), (0 : ℚ)), ((0 : ℚ), (0 : ℚ))]⟩

/-- **C4 (failing input).** `contourDetectionPoints = 650`, yet on a contour
set with only 10 points clustering is still attempted and a non-empty cluster
result is produced: no code consults the activity gate declared on line 29,
and nothing yields a no-motion outcome for sub-threshold contour sets. -/
theorem clustering_attempted_below_activity_gate :
    (kmeansInput contours10).length < contourDetectionPoints ∧
    (contourClustering kmeansAllZero contours10 (clusterParams true).1 2 true).1
      = List.replicate 10 ((5 : ℚ), (5 : ℚ)) := by
  have hflat : contourCoordinatesOf contours10 = List.replicate 10 ((5 : ℤ), (5 : ℤ)) := by
    rw [contours10, contourCoordinatesOf, List.foldl_cons, List.foldl_nil, List.nil_append]
  have hin : kmeansInput contours10 = List.replicate 10 ((5 : ℚ), (5 : ℚ)) := by
    rw [kmeansInput, hflat, List.map_replicate]
    norm_num
  constructor
  · rw [hin, List.length_replicate]
    norm_num [contourDetectionPoints]
  · show ((kmeansInput contours10).zip
        (kmeansAllZero (kmeansInput contours10) 2 (clusterParams true).1).label).filterMap
        (fun pl => if pl.2 = 0 then some pl.1 else none)
      = List.replicate 10 ((5 : ℚ), (5 : ℚ))
    rw [kmeansAllZero]
    rw [filterMap_zip_replicate_zero, hin]

